import Mathlib

/-!
Verification of the ShutIt interactive session engine against its code
(`shutit_class.py`, `shutit.py`).  The Python functions relevant to the
claims are embedded shallowly below; each definition carries a comment
pointing at the source location it was translated from.
-/

namespace ShutItSpec

/-! ## Interrupt / Timeout Escalator (`shutit_class.py`, `expect_allow_interrupt`)

The escalator's interactions with the outside world are abstracted as:
* `probe k` — result of the `k`-th `shutit_pexpect_session.expect(expect, timeout=iteration_s)`
  call inside the polling loop; a value equal to the number of expected
  patterns (`ne`) denotes "no pattern matched within the quantum", any
  smaller value is the matched index (pexpect semantics).
* `ctrlc k` — value of `shutit.build['ctrlc_stop']` when checked after the
  `k`-th polling miss.
* `reprobe1`, `reprobe2` — results of the two direct
  `shutit_pexpect_child.expect(expect, timeout=1)` calls performed after the
  interrupt resp. suspend signal.
* `interactive` — result of `shutit_util.determine_interactive(self)`,
  assumed stable over the call.
The function returns the trace of observable events together with an
outcome: a returned match index, or a fatal failure (`self.fail` with
default arguments terminates the process).
-/

/-- Control characters sent by the escalator: `'\x03'` (ETX, interrupt). -/
def ETX : Char := '\x03'

/-- Control characters sent by the escalator: `'\x1a'` (SUB, suspend). -/
def SUB : Char := '\x1a'

/-- Observable events of one `expect_allow_interrupt` run. -/
inductive Ev where
  | probe (res : Nat)
  | clearFlag
  | sendChar (c : Char)
  | pausePoint
  deriving DecidableEq, Repr

/-- How the polling loop of `expect_allow_interrupt` terminated. -/
inductive LoopExit where
  | matched (idx : Nat)
  | timedOut
  | ctrlcBreak
  deriving DecidableEq, Repr

/-- Final outcome of `expect_allow_interrupt`: a returned index, or a call
to `self.fail msg` (which exits the process). -/
inductive EAIOutcome where
  | ret (idx : Nat)
  | fatal (msg : String)
  deriving DecidableEq, Repr

/-- Translation of `if timeout < 1: timeout = 1` (shutit_class.py:556-557). -/
def clamp_timeout (timeout : Int) : Int :=
  if timeout < 1 then 1 else timeout

/-- The two clamps applied to `iteration_s` after `timeout` has been clamped
(shutit_class.py:558-561):
`if iteration_s > timeout: iteration_s = timeout - 1` then
`if iteration_s < 1: iteration_s = 1`. -/
def clamp_iteration (timeout iteration_s : Int) : Int :=
  let t := clamp_timeout timeout
  let i := if iteration_s > t then t - 1 else iteration_s
  if i < 1 then 1 else i

/-- The polling loop of `expect_allow_interrupt` (shutit_class.py:563-571):
`while accum_timeout < timeout:` probe; on a miss (`res == len(expect)`)
either break on `ctrlc_stop` (clearing the flag) or accumulate
`iteration_s`; on a match return the index.  The effective quantum is
`ip + 1`, the caller passes `ip := iteration_s - 1` (the clamped
`iteration_s` is always ≥ 1). -/
def eaiLoop (probe : Nat → Nat) (ctrlc : Nat → Bool) (ne tN ip : Nat)
    (accum k : Nat) : List Ev × LoopExit :=
  if h : accum < tN then
    let r := probe k
    if r = ne then
      if ctrlc k then
        ([Ev.probe r, Ev.clearFlag], LoopExit.ctrlcBreak)
      else
        let rest := eaiLoop probe ctrlc ne tN ip (accum + (ip + 1)) (k + 1)
        (Ev.probe r :: rest.1, rest.2)
    else
      ([Ev.probe r], LoopExit.matched r)
  else
    ([], LoopExit.timedOut)
termination_by tN - accum
decreasing_by omega

/-- The code after the polling loop (shutit_class.py:573-593): on
`timed_out` in a non-interactive context fail; in an interactive context
send ETX, re-probe for 1s, if unmatched send SUB, re-probe for 1s, if still
unmatched fail, otherwise pause interactively and return the match;
in a non-interactive context after a ctrl-c break, fail. -/
def eaiAfterLoop (interactive : Bool) (reprobe1 reprobe2 ne : Nat)
    (timed_out : Bool) (tr : List Ev) : List Ev × EAIOutcome :=
  if timed_out ∧ ¬ interactive then
    (tr, EAIOutcome.fatal "Timed out and could not recover")
  else if interactive then
    if reprobe1 = ne then
      if reprobe2 = ne then
        (tr ++ [Ev.sendChar ETX, Ev.probe reprobe1, Ev.sendChar SUB, Ev.probe reprobe2],
         EAIOutcome.fatal "CTRL-C sent by ShutIt following a timeout, and could not recover")
      else
        (tr ++ [Ev.sendChar ETX, Ev.probe reprobe1, Ev.sendChar SUB, Ev.probe reprobe2,
                Ev.pausePoint],
         EAIOutcome.ret reprobe2)
    else
      (tr ++ [Ev.sendChar ETX, Ev.probe reprobe1, Ev.pausePoint],
       EAIOutcome.ret reprobe1)
  else if timed_out then
    (tr, EAIOutcome.fatal "Timed out and interactive, but could not recover")
  else
    (tr, EAIOutcome.fatal "CTRL-C hit and could not recover")

/-- Translation of `expect_allow_interrupt(shutit, child, expect, timeout, iteration_s)`
(shutit_class.py:543-593).  `ne` is `len(expect)` after a plain string has
been wrapped into a one-element list. -/
def expect_allow_interrupt (interactive : Bool) (probe : Nat → Nat)
    (ctrlc : Nat → Bool) (reprobe1 reprobe2 : Nat) (ne : Nat)
    (timeout iteration_s : Int) : List Ev × EAIOutcome :=
  let tN := (clamp_timeout timeout).toNat
  let iN := (clamp_iteration timeout iteration_s).toNat
  let lp := eaiLoop probe ctrlc ne tN (iN - 1) 0 0
  match lp.2 with
  | LoopExit.matched idx => (lp.1, EAIOutcome.ret idx)
  | LoopExit.timedOut => eaiAfterLoop interactive reprobe1 reprobe2 ne true lp.1
  | LoopExit.ctrlcBreak => eaiAfterLoop interactive reprobe1 reprobe2 ne false lp.1

/-! ## Echo override (`shutit_class.py`, `get_echo_override`) -/

/-- Value of `logging.DEBUG` in the Python standard library. -/
def loggingDEBUG : Int := 10

/-- Translation of `get_echo_override(self, echo)` (shutit_class.py:2154-2170), with the
consulted fields of `self.build` passed explicitly.  `echo` is `None`,
`True` or `False` in Python, hence `Option Bool` here; the chain of
assignments is translated line by line. -/
def get_echo_override (always_echo : Bool) (loglevel : Int)
    (walkthrough exam : Bool) (echo : Option Bool) : Option Bool :=
  let echo := if always_echo then some true else echo
  let echo := if echo = none ∧ loglevel ≤ loggingDEBUG then some true else echo
  let echo := if echo = none ∧ walkthrough then some true else echo
  let echo := if echo = none then some false else echo
  if exam then some false else echo

/-! ## Module map initialisation (`shutit.py`, `init_shutit_map`) -/

/-- The two fields of a `ShutItModule` consulted by `init_shutit_map`. -/
structure ShutItModule where
  module_id : String
  run_order : Int
  deriving DecidableEq, Repr

/-- The `for module in modules` loop of `init_shutit_map`
(shutit.py:113-123): fail on a duplicated module id or a duplicated run
order, record whether a module with `run_order == 0` was seen, and insert
the module into `shutit_map` (and `run_orders`), both modelled as
association lists looked up by first match. -/
def initLoop : List ShutItModule → List (String × ShutItModule) →
    List (Int × ShutItModule) → Bool →
    Except String (List (String × ShutItModule) × Bool)
  | [], map, _, has_core => Except.ok (map, has_core)
  | m :: rest, map, orders, has_core =>
    if (map.lookup m.module_id).isSome then
      Except.error ("Duplicated module id: " ++ m.module_id)
    else if (orders.lookup m.run_order).isSome then
      Except.error ("Duplicate run order: " ++ toString m.run_order ++ " for " ++ m.module_id)
    else
      initLoop rest (map ++ [(m.module_id, m)]) (orders ++ [(m.run_order, m)])
        (has_core || decide (m.run_order = 0))

/-- Translation of `init_shutit_map(shutit)` (shutit.py:89-126).  The preliminary check
fails when no module has `run_order > 0` (with a message depending on the
configured module path); then the loop above runs, and finally the run is
aborted when no module had `run_order == 0`. -/
def init_shutit_map (modules : List ShutItModule) (path : String) :
    Except String (List (String × ShutItModule)) :=
  if (modules.filter (fun m => m.run_order > 0)).length < 1 then
    Except.error
      (if path = "" then
        "No ShutIt modules aside from core ones found and no ShutIt module path given."
      else if path = "." then
        "No modules aside from core ones found and no ShutIt module path given apart from default (.)."
      else
        "No modules aside from core ones found and no ShutIt modules in path: " ++ path)
  else
    match initLoop modules [] [] false with
    | Except.error e => Except.error e
    | Except.ok (map, has_core) =>
      if has_core then Except.ok map
      else Except.error "No module with run_order=0 specified! This is required."

/-! ## Per-environment install caches (`shutit.py`, `build_module` / `do_remove`) -/

/-- The cache fields of a pexpect-session environment touched by
`build_module` and `do_remove`. -/
structure SessionEnvironment where
  modules_installed : List String
  modules_ready : List String
  modules_not_installed : List String
  deriving DecidableEq, Repr

/-- Translation of `build_module(shutit, module)` (shutit.py:342-358), cache effect only:
on a failed `module.build` the run is aborted; on success the id is
appended to `modules_installed` and, if present, removed (Python
`list.remove`, first occurrence) from `modules_not_installed`.  The
append/remove pair runs whatever the delivery method; only the
`build_db_dir` marker files are docker-specific. -/
def build_module (env : SessionEnvironment) (module_id : String)
    (build_ok : Bool) : Except String SessionEnvironment :=
  if build_ok then
    Except.ok { env with
      modules_installed := env.modules_installed ++ [module_id],
      modules_not_installed :=
        if module_id ∈ env.modules_not_installed then
          env.modules_not_installed.erase module_id
        else env.modules_not_installed }
  else
    Except.error (module_id ++ " failed on build")

/-- The per-module body of `do_remove(shutit)` (shutit.py:312-338), cache
effect only, for a module configured for removal: on a failed
`module.remove` the run is aborted; on success, under `docker`/`dockerfile`
delivery, the id is removed (first occurrence, if present) from
`modules_installed` and appended to `modules_not_installed`; under other
delivery methods the caches are untouched. -/
def do_remove_module (env : SessionEnvironment) (module_id : String)
    (remove_ok delivery_docker : Bool) : Except String SessionEnvironment :=
  if remove_ok then
    if delivery_docker then
      Except.ok { env with
        modules_installed :=
          if module_id ∈ env.modules_installed then
            env.modules_installed.erase module_id
          else env.modules_installed,
        modules_not_installed := env.modules_not_installed ++ [module_id] }
    else
      Except.ok env
  else
    Except.error (module_id ++ " failed on remove")

/-! ## Login / logout manager (spec-modelled)

`ShutItPexpectSession.login` / `.logout` live in module `shutit_pexpect`,
which is not shipped under src/; `src/shutit_class.py:1574-1626` only wraps
the arguments into a `ShutItSendSpec` and delegates.  The state transitions
below are therefore modelled from the spec (§4.4 Login / Logout Manager).
-/

/-- One nested login level: prompt pattern, bound environment id, entry
command (spec §3, Context). -/
structure LoginContext where
  prompt : String
  environment_id : String
  entry_command : String
  deriving DecidableEq, Repr

/-- The session state touched by login/logout/send: the login-context
stack, the session's default expect pattern, and the command history
(spec §3, Session). -/
structure PexpectSessionState where
  login_stack : List LoginContext
  default_expect : String
  history : List String
  deriving DecidableEq, Repr

/-- Modelled from the spec: `ShutItPexpectSession.login` (module
`shutit_pexpect`, not under src/).  Spec §4.4: on reaching the new prompt,
push a Context and rebind the session's default expect pattern, returning
`true`; on failure to reach the new prompt, abort fatally when
`fail_on_fail` is set (the default), otherwise return `false` and leave the
stack unmodified. -/
def login (st : PexpectSessionState) (ctx : LoginContext)
    (reached_prompt fail_on_fail : Bool) :
    Except String (PexpectSessionState × Bool) :=
  if reached_prompt then
    Except.ok
      ({ st with login_stack := ctx :: st.login_stack, default_expect := ctx.prompt }, true)
  else if fail_on_fail then
    Except.error "login failed to reach the new prompt"
  else
    Except.ok (st, false)

/-- Modelled from the spec: `ShutItPexpectSession.logout` (module
`shutit_pexpect`, not under src/).  Spec §4.4: send the exit command, pop
the Context, restore the prior prompt pattern as default, and return the
output; logging out past the root context is an assertion failure. -/
def logout (st : PexpectSessionState) (output : String) :
    Except String (PexpectSessionState × String) :=
  match st.login_stack with
  | _ :: prev :: rest =>
    Except.ok ({ st with login_stack := prev :: rest, default_expect := prev.prompt }, output)
  | _ => Except.error "Logout called past the root context"

/-- One send enclosed in a bracket, as far as the session state is
concerned: its command text, the `record_command` and `secret` flags, and
whether the send raised an error that the caller caught. -/
structure SendCall where
  cmd : String
  record_command : Bool
  secret : Bool
  failed : Bool
  deriving DecidableEq, Repr

/-- Modelled from the spec: the session-state effect of one
`ShutItPexpectSession.send` call (module `shutit_pexpect`, not under
src/).  Spec §4.2: unless `record_command` is false or `secret` is true,
the command is appended to the session history; no send operation touches
the login-context stack or the default expect pattern (spec §4.4 brackets
update those). -/
def send_step (st : PexpectSessionState) (c : SendCall) : PexpectSessionState :=
  { st with history :=
      if c.record_command ∧ ¬ c.secret then st.history ++ [c.cmd] else st.history }

/-- A sequence of sends enclosed in a bracket, each possibly failing with
the failure caught by the caller. -/
def run_sends (st : PexpectSessionState) (cs : List SendCall) : PexpectSessionState :=
  cs.foldl send_step st

/-! ## Send with check-exit retries (spec-modelled)

The retry logic of `ShutItPexpectSession.send` is in module
`shutit_pexpect`, not under src/; `src/shutit_class.py:388-461` only builds
a `ShutItSendSpec` and delegates.  Modelled from the spec (§4.2): with
`check_exit` set, the captured exit status is compared against the accepted
exit-value set; a mismatch triggers resend of the identical command up to
`retry` times, then a fatal ExitStatusError carrying command, expected set
and actual value.
-/

/-- Result of a send with `check_exit`: the pexpect match index on
success, or the fatal ExitStatusError with its payload. -/
inductive SendResult where
  | ok (matched : Nat)
  | exitStatusError (cmd : String) (expected : List Int) (actual : Int)
  deriving DecidableEq, Repr

/-- Modelled from the spec: the check-exit retry loop of
`ShutItPexpectSession.send`.  `exit_of n` is the exit status captured from
the sentinel after the `n`-th transmission of the command; the returned
list is the sequence of transmitted command texts.  An accepted status
completes the call (match index 0, the sentinel prompt); otherwise the
identical text is resent while retries remain, and on exhaustion an
ExitStatusError carrying the command, the expected set and the actual
value is raised. -/
def send_retry_loop (cmd : String) (exit_values : List Int) (exit_of : Nat → Int) :
    Nat → Nat → List String × SendResult
  | attempt, retries_left =>
    if exit_of attempt ∈ exit_values then
      ([cmd], SendResult.ok 0)
    else
      match retries_left with
      | 0 => ([cmd], SendResult.exitStatusError cmd exit_values (exit_of attempt))
      | r + 1 =>
        let rest := send_retry_loop cmd exit_values exit_of (attempt + 1) r
        (cmd :: rest.1, rest.2)

/-- Modelled from the spec: `ShutItPexpectSession.send` with `check_exit`
enabled, accepted exit-value set `exit_values` and retry budget `retry`:
transmit the command once, then retry per `send_retry_loop`. -/
def send_check_exit (cmd : String) (exit_values : List Int) (retry : Nat)
    (exit_of : Nat → Int) : List String × SendResult :=
  send_retry_loop cmd exit_values exit_of 0 retry

/-! ## Helper lemmas -/

lemma clamp_timeout_pos (timeout : Int) : 1 ≤ clamp_timeout timeout := by
  unfold clamp_timeout
  split <;> omega

lemma clamp_iteration_pos (timeout iteration_s : Int) :
    1 ≤ clamp_iteration timeout iteration_s := by
  simp only [clamp_iteration, clamp_timeout]
  split_ifs <;> omega

lemma clamp_iteration_le_clamp_timeout (timeout iteration_s : Int) :
    clamp_iteration timeout iteration_s ≤ clamp_timeout timeout := by
  simp only [clamp_iteration, clamp_timeout]
  split_ifs <;> omega

/-- If no probe ever matches and the cancel flag is never set, the polling
loop times out and its trace consists of miss probes only. -/
lemma eaiLoop_allMiss (probe : Nat → Nat) (ctrlc : Nat → Bool) (ne tN ip : Nat)
    (hm : ∀ j, probe j = ne) (hc : ∀ j, ctrlc j = false) (accum k : Nat) :
    (eaiLoop probe ctrlc ne tN ip accum k).2 = LoopExit.timedOut ∧
    ∀ e ∈ (eaiLoop probe ctrlc ne tN ip accum k).1, e = Ev.probe ne := by
  rw [eaiLoop]
  split
  · have ih := eaiLoop_allMiss probe ctrlc ne tN ip hm hc (accum + (ip + 1)) (k + 1)
    simp only [hm, hc, if_pos rfl, Bool.false_eq_true, if_false]
    refine ⟨ih.1, ?_⟩
    intro e he
    rcases List.mem_cons.1 he with rfl | he
    · rfl
    · exact ih.2 e he
  · simp
termination_by tN - accum
decreasing_by omega

/-- If the first `n` probes miss with the cancel flag down, and the `n`-th
probe matches before the accumulated time reaches the timeout, the polling
loop returns that match, its trace being probe events only. -/
lemma eaiLoop_firstMatch (probe : Nat → Nat) (ctrlc : Nat → Bool) (ne tN ip : Nat) :
    ∀ n accum k, (∀ j, j < n → probe (k + j) = ne) → (∀ j, j < n → ctrlc (k + j) = false) →
      probe (k + n) ≠ ne → accum + n * (ip + 1) < tN →
      (eaiLoop probe ctrlc ne tN ip accum k).2 = LoopExit.matched (probe (k + n)) ∧
      ∀ e ∈ (eaiLoop probe ctrlc ne tN ip accum k).1, ∃ r, e = Ev.probe r := by
  intro n
  induction n with
  | zero =>
    intro accum k _ _ hne hlt
    have h : accum < tN := by omega
    rw [eaiLoop, dif_pos h]
    simp only [Nat.add_zero] at hne
    simp [hne]
  | succ n ih =>
    intro accum k hm hc hne hlt
    have hstep : 0 < (n + 1) * (ip + 1) := Nat.mul_pos (Nat.succ_pos n) (Nat.succ_pos ip)
    have h : accum < tN := by omega
    rw [eaiLoop, dif_pos h]
    have h0 : probe k = ne := by simpa using hm 0 (Nat.succ_pos n)
    have c0 : ctrlc k = false := by simpa using hc 0 (Nat.succ_pos n)
    have hm' : ∀ j, j < n → probe (k + 1 + j) = ne := by
      intro j hj
      have := hm (j + 1) (by omega)
      rwa [show k + (j + 1) = k + 1 + j by omega] at this
    have hc' : ∀ j, j < n → ctrlc (k + 1 + j) = false := by
      intro j hj
      have := hc (j + 1) (by omega)
      rwa [show k + (j + 1) = k + 1 + j by omega] at this
    have hne' : probe (k + 1 + n) ≠ ne := by
      rwa [show k + 1 + n = k + (n + 1) by omega]
    have hlt' : accum + (ip + 1) + n * (ip + 1) < tN := by
      have : (n + 1) * (ip + 1) = n * (ip + 1) + (ip + 1) := Nat.succ_mul n (ip + 1)
      omega
    have := ih (accum + (ip + 1)) (k + 1) hm' hc' hne' hlt'
    simp only [h0, c0, if_pos rfl, Bool.false_eq_true, if_false]
    rw [show k + (n + 1) = k + 1 + n by omega]
    refine ⟨this.1, ?_⟩
    intro e he
    rcases List.mem_cons.1 he with rfl | he
    · exact ⟨ne, rfl⟩
    · exact this.2 e he

/-- Sends never touch the login-context stack or the default expect
pattern, failed-and-caught or not. -/
lemma run_sends_login_stack (cs : List SendCall) :
    ∀ st : PexpectSessionState, (run_sends st cs).login_stack = st.login_stack ∧
      (run_sends st cs).default_expect = st.default_expect := by
  induction cs with
  | nil => intro st; exact ⟨rfl, rfl⟩
  | cons c cs ih =>
    intro st
    have h := ih (send_step st c)
    simpa [run_sends, send_step] using h

lemma lookup_append_left {α β : Type} [BEq α] {l1 l2 : List (α × β)} {k : α} {v : β}
    (h : l1.lookup k = some v) : (l1 ++ l2).lookup k = some v := by
  induction l1 with
  | nil => simp [List.lookup] at h
  | cons p l1 ih =>
    rcases p with ⟨a, b⟩
    by_cases hk : k == a
    · simpa [List.lookup, hk] using by simpa [List.lookup, hk] using h
    · simp [List.lookup, hk] at h ⊢
      exact ih h

lemma lookup_append_none {α β : Type} [BEq α] {l1 l2 : List (α × β)} {k : α}
    (h : l1.lookup k = none) : (l1 ++ l2).lookup k = l2.lookup k := by
  induction l1 with
  | nil => simp
  | cons p l1 ih =>
    rcases p with ⟨a, b⟩
    by_cases hk : k == a
    · simp [List.lookup, hk] at h
    · simp [List.lookup, hk] at h ⊢
      exact ih h

lemma lookup_append_eq_none_left {α β : Type} [BEq α] {l1 l2 : List (α × β)} {k : α}
    (h : (l1 ++ l2).lookup k = none) : l1.lookup k = none := by
  cases hl : l1.lookup k with
  | none => rfl
  | some v => rw [lookup_append_left hl] at h; cases h

/-- Invariants carried by a successful run of the `init_shutit_map` loop:
the processed modules collide neither with the accumulated maps nor with
each other, and the core flag comes out as expected. -/
lemma initLoop_ok_spec :
    ∀ (mods : List ShutItModule) (map : List (String × ShutItModule))
      (orders : List (Int × ShutItModule)) (hc : Bool)
      (mp : List (String × ShutItModule)) (hcout : Bool),
      initLoop mods map orders hc = Except.ok (mp, hcout) →
      (∀ m ∈ mods, map.lookup m.module_id = none) ∧
      (∀ m ∈ mods, orders.lookup m.run_order = none) ∧
      (mods.map ShutItModule.module_id).Nodup ∧
      (mods.map ShutItModule.run_order).Nodup ∧
      hcout = (hc || mods.any (fun m => m.run_order == 0)) := by
  intro mods
  induction mods with
  | nil =>
    intro map orders hc mp hcout h
    simp only [initLoop, Except.ok.injEq, Prod.mk.injEq] at h
    simp [h.2]
  | cons m rest ih =>
    intro map orders hc mp hcout h
    simp only [initLoop] at h
    by_cases h1 : (map.lookup m.module_id).isSome
    · simp [h1] at h
    by_cases h2 : (orders.lookup m.run_order).isSome
    · simp [h1, h2] at h
    simp only [h1, h2, if_false, Bool.false_eq_true] at h
    obtain ⟨hm1, hm2, hnd1, hnd2, hcore⟩ :=
      ih (map ++ [(m.module_id, m)]) (orders ++ [(m.run_order, m)])
        (hc || decide (m.run_order = 0)) mp hcout h
    refine ⟨?_, ?_, ?_, ?_, ?_⟩
    · intro x hx
      rcases List.mem_cons.1 hx with rfl | hx
      · exact Option.not_isSome_iff_eq_none.1 h1
      · exact lookup_append_eq_none_left (hm1 x hx)
    · intro x hx
      rcases List.mem_cons.1 hx with rfl | hx
      · exact Option.not_isSome_iff_eq_none.1 h2
      · exact lookup_append_eq_none_left (hm2 x hx)
    · refine List.nodup_cons.2 ⟨?_, hnd1⟩
      intro hmem
      rcases List.mem_map.1 hmem with ⟨x, hx, hid⟩
      have := hm1 x hx
      have hnone : (map ++ [(m.module_id, m)]).lookup m.module_id = none := hid ▸ this
      have : ([(m.module_id, m)] : List (String × ShutItModule)).lookup m.module_id = none := by
        cases hl : map.lookup m.module_id with
        | none => rw [lookup_append_none hl] at hnone; exact hnone
        | some v => rw [lookup_append_left hl] at hnone; cases hnone
      simp [List.lookup] at this
    · refine List.nodup_cons.2 ⟨?_, hnd2⟩
      intro hmem
      rcases List.mem_map.1 hmem with ⟨x, hx, hid⟩
      have := hm2 x hx
      have hnone : (orders ++ [(m.run_order, m)]).lookup m.run_order = none := hid ▸ this
      have : ([(m.run_order, m)] : List (Int × ShutItModule)).lookup m.run_order = none := by
        cases hl : orders.lookup m.run_order with
        | none => rw [lookup_append_none hl] at hnone; exact hnone
        | some v => rw [lookup_append_left hl] at hnone; cases hnone
      simp [List.lookup] at this
    · rw [hcore]
      have hdec : (m.run_order == 0) = decide (m.run_order = 0) := by
        by_cases h0 : m.run_order = 0 <;> simp [h0]
      simp [List.any_cons, Bool.or_assoc, hdec]

/-- A successful run of the `init_shutit_map` loop records every processed
module in the map under its module id, and preserves earlier entries. -/
lemma initLoop_ok_lookup :
    ∀ (mods : List ShutItModule) (map : List (String × ShutItModule))
      (orders : List (Int × ShutItModule)) (hc : Bool)
      (mp : List (String × ShutItModule)) (hcout : Bool),
      initLoop mods map orders hc = Except.ok (mp, hcout) →
      (∀ k v, map.lookup k = some v → mp.lookup k = some v) ∧
      (∀ m ∈ mods, mp.lookup m.module_id = some m) := by
  intro mods
  induction mods with
  | nil =>
    intro map orders hc mp hcout h
    simp only [initLoop, Except.ok.injEq, Prod.mk.injEq] at h
    refine ⟨?_, by simp⟩
    intro k v hv
    rw [← h.1]
    exact hv
  | cons m rest ih =>
    intro map orders hc mp hcout h
    simp only [initLoop] at h
    by_cases h1 : (map.lookup m.module_id).isSome
    · simp [h1] at h
    by_cases h2 : (orders.lookup m.run_order).isSome
    · simp [h1, h2] at h
    simp only [h1, h2, if_false, Bool.false_eq_true] at h
    obtain ⟨hpres, hrec⟩ :=
      ih (map ++ [(m.module_id, m)]) (orders ++ [(m.run_order, m)])
        (hc || decide (m.run_order = 0)) mp hcout h
    have hme : (map ++ [(m.module_id, m)]).lookup m.module_id = some m := by
      rw [lookup_append_none (Option.not_isSome_iff_eq_none.1 h1)]
      simp [List.lookup]
    refine ⟨?_, ?_⟩
    · intro k v hv
      exact hpres k v (lookup_append_left hv)
    · intro x hx
      rcases List.mem_cons.1 hx with rfl | hx
      · exact hpres x.module_id x hme
      · exact hrec x hx

/-- When the remaining modules collide neither with the accumulated maps
nor with each other, the `init_shutit_map` loop succeeds. -/
lemma initLoop_ok_of_nodup :
    ∀ (mods : List ShutItModule) (map : List (String × ShutItModule))
      (orders : List (Int × ShutItModule)) (hc : Bool),
      (∀ m ∈ mods, map.lookup m.module_id = none) →
      (∀ m ∈ mods, orders.lookup m.run_order = none) →
      (mods.map ShutItModule.module_id).Nodup →
      (mods.map ShutItModule.run_order).Nodup →
      ∃ mp hcout, initLoop mods map orders hc = Except.ok (mp, hcout) := by
  intro mods
  induction mods with
  | nil => intro map orders hc _ _ _ _; exact ⟨map, hc, rfl⟩
  | cons m rest ih =>
    intro map orders hc hm1 hm2 hnd1 hnd2
    have e1 : map.lookup m.module_id = none := hm1 m (List.mem_cons_self m rest)
    have e2 : orders.lookup m.run_order = none := hm2 m (List.mem_cons_self m rest)
    have hid : m.module_id ∉ rest.map ShutItModule.module_id := (List.nodup_cons.1 hnd1).1
    have hor : m.run_order ∉ rest.map ShutItModule.run_order := (List.nodup_cons.1 hnd2).1
    have hm1' : ∀ x ∈ rest, (map ++ [(m.module_id, m)]).lookup x.module_id = none := by
      intro x hx
      rw [lookup_append_none (hm1 x (List.mem_cons_of_mem m hx))]
      have hne : x.module_id ≠ m.module_id := by
        intro he
        exact hid (he ▸ List.mem_map.2 ⟨x, hx, rfl⟩)
      simp [List.lookup, beq_eq_false_iff_ne.2 hne]
    have hm2' : ∀ x ∈ rest, (orders ++ [(m.run_order, m)]).lookup x.run_order = none := by
      intro x hx
      rw [lookup_append_none (hm2 x (List.mem_cons_of_mem m hx))]
      have hne : x.run_order ≠ m.run_order := by
        intro he
        exact hor (he ▸ List.mem_map.2 ⟨x, hx, rfl⟩)
      simp [List.lookup, beq_eq_false_iff_ne.2 hne]
    obtain ⟨mp, hcout, hok⟩ :=
      ih (map ++ [(m.module_id, m)]) (orders ++ [(m.run_order, m)])
        (hc || decide (m.run_order = 0)) hm1' hm2' (List.nodup_cons.1 hnd1).2
        (List.nodup_cons.1 hnd2).2
    refine ⟨mp, hcout, ?_⟩
    simp only [initLoop, e1, e2, Option.isSome_none, Bool.false_eq_true, if_false]
    exact hok

/-! ## Claims -/

/-- C5 (counterexample): the claim "the effective polling quantum satisfies
1 ≤ q ≤ T−1" fails at total timeout T = 3 with requested quantum q = 3:
the code only reduces the quantum when it strictly exceeds the timeout, so
the effective quantum is 3, which is not ≤ T − 1 = 2. -/
theorem C5_counterexample :
    clamp_iteration 3 3 = 3 ∧ ¬ (clamp_iteration 3 3 ≤ 3 - 1) := by
  constructor
  · rfl
  · decide

/-- C5 (amended): for every total timeout T and requested quantum q, the
effective polling quantum `clamp_iteration T q` used by
`expect_allow_interrupt` satisfies 1 ≤ q' ≤ max(T, 1) (the clamped
timeout), not 1 ≤ q' ≤ T − 1; and the default quantum 1 is left at 1. -/
theorem C5_quantum_clamp (timeout iteration_s : Int) :
    (1 ≤ clamp_iteration timeout iteration_s ∧
      clamp_iteration timeout iteration_s ≤ clamp_timeout timeout) ∧
    clamp_iteration timeout 1 = 1 := by
  refine ⟨⟨clamp_iteration_pos timeout iteration_s,
    clamp_iteration_le_clamp_timeout timeout iteration_s⟩, ?_⟩
  simp only [clamp_iteration, clamp_timeout]
  split_ifs <;> omega

/-- C6: when no expected pattern ever matches and the cancel flag stays
down, an unattended (non-interactive) run of `expect_allow_interrupt` fails
fatally with "Timed out and could not recover" and sends no interrupt or
suspend signal. -/
theorem C6_unattended_timeout_fatal
    (probe : Nat → Nat) (ctrlc : Nat → Bool) (reprobe1 reprobe2 ne : Nat)
    (timeout iteration_s : Int)
    (hm : ∀ j, probe j = ne) (hc : ∀ j, ctrlc j = false) :
    (expect_allow_interrupt false probe ctrlc reprobe1 reprobe2 ne timeout iteration_s).2
        = EAIOutcome.fatal "Timed out and could not recover" ∧
    ∀ c, Ev.sendChar c ∉
      (expect_allow_interrupt false probe ctrlc reprobe1 reprobe2 ne timeout iteration_s).1 := by
  obtain ⟨h2, h1⟩ := eaiLoop_allMiss probe ctrlc ne (clamp_timeout timeout).toNat
      ((clamp_iteration timeout iteration_s).toNat - 1) hm hc 0 0
  simp only [expect_allow_interrupt]
  rcases hlp : eaiLoop probe ctrlc ne (clamp_timeout timeout).toNat
      ((clamp_iteration timeout iteration_s).toNat - 1) 0 0 with ⟨tr, ex⟩
  rw [hlp] at h2 h1
  simp only at h2
  subst h2
  simp only [eaiAfterLoop, Bool.not_false, and_true, if_true, if_pos trivial]
  refine ⟨rfl, ?_⟩
  intro c hcmem
  have := h1 _ hcmem
  cases this

/-- C6 witness: a concrete unattended run (two expected patterns, every
probe missing, flag down, timeout 3, quantum 1) fails fatally without
signals. -/
theorem C6_unattended_timeout_fatal_witness :
    (expect_allow_interrupt false (fun _ => 2) (fun _ => false) 2 2 2 3 1).2
        = EAIOutcome.fatal "Timed out and could not recover" ∧
    Ev.sendChar ETX ∉
      (expect_allow_interrupt false (fun _ => 2) (fun _ => false) 2 2 2 3 1).1 := by
  obtain ⟨h2, h1⟩ := C6_unattended_timeout_fatal (fun _ => 2) (fun _ => false) 2 2 2 3 1
    (fun _ => rfl) (fun _ => rfl)
  exact ⟨h2, h1 ETX⟩

/-- C7: if a polling probe of `expect_allow_interrupt` observes one of the
expected patterns (an index `i` different from `len(expect)`), having been
preceded only by misses with the cancel flag down and before the timeout
accumulates, the call returns that index with no interrupt/suspend signal
and no interactive pause (hence no failure): the result is `ret i` and the
trace holds probe events only. -/
theorem C7_poll_match_returns_index
    (interactive : Bool) (probe : Nat → Nat) (ctrlc : Nat → Bool)
    (reprobe1 reprobe2 ne : Nat) (timeout iteration_s : Int) (n i : Nat)
    (hmiss : ∀ j, j < n → probe j = ne) (hct : ∀ j, j < n → ctrlc j = false)
    (hpi : probe n = i) (hne : i ≠ ne)
    (hn : n * (clamp_iteration timeout iteration_s).toNat < (clamp_timeout timeout).toNat) :
    (expect_allow_interrupt interactive probe ctrlc reprobe1 reprobe2 ne timeout iteration_s).2
        = EAIOutcome.ret i ∧
    ∀ e ∈ (expect_allow_interrupt interactive probe ctrlc reprobe1 reprobe2 ne
        timeout iteration_s).1, ∃ r, e = Ev.probe r := by
  have hiN : 1 ≤ (clamp_iteration timeout iteration_s).toNat := by
    have := clamp_iteration_pos timeout iteration_s
    omega
  have hstep : (clamp_iteration timeout iteration_s).toNat - 1 + 1
      = (clamp_iteration timeout iteration_s).toNat := by omega
  obtain ⟨h2, h1⟩ := eaiLoop_firstMatch probe ctrlc ne (clamp_timeout timeout).toNat
      ((clamp_iteration timeout iteration_s).toNat - 1) n 0 0
      (by intro j hj; simpa using hmiss j hj)
      (by intro j hj; simpa using hct j hj)
      (by simpa [hpi] using hne)
      (by rw [hstep]; simpa using hn)
  simp only [expect_allow_interrupt]
  rcases hlp : eaiLoop probe ctrlc ne (clamp_timeout timeout).toNat
      ((clamp_iteration timeout iteration_s).toNat - 1) 0 0 with ⟨tr, ex⟩
  rw [hlp] at h2 h1
  simp only [Nat.zero_add, hpi] at h2 h1
  subst h2
  exact ⟨rfl, h1⟩

/-- C7 witness: with one expected pattern, a first probe that matches index
0 makes the call return 0 at once. -/
theorem C7_poll_match_returns_index_witness :
    (expect_allow_interrupt true (fun _ => 0) (fun _ => false) 1 1 1 5 1).2
        = EAIOutcome.ret 0 := by
  exact (C7_poll_match_returns_index true (fun _ => 0) (fun _ => false) 1 1 1 5 1 0 0
    (fun j hj => absurd hj (Nat.not_lt_zero j))
    (fun j hj => absurd hj (Nat.not_lt_zero j))
    rfl (by decide) (by decide)).1

/-- C1: in an attended run in which no expected pattern ever matches during
polling and the cancel flag stays down, on reaching the total timeout the
escalator sends exactly one interrupt signal (ETX) and, if the re-probe
still misses, exactly one suspend signal (SUB) and, if still unmatched,
fails fatally; if a re-probe after either signal matches index `i`, it
surfaces an interactive pause and returns `i`; never more than one signal
of each kind is sent. -/
theorem C1_attended_escalation
    (probe : Nat → Nat) (ctrlc : Nat → Bool) (reprobe1 reprobe2 ne : Nat)
    (timeout iteration_s : Int)
    (hm : ∀ j, probe j = ne) (hc : ∀ j, ctrlc j = false) :
    (reprobe1 = ne → reprobe2 = ne →
      (expect_allow_interrupt true probe ctrlc reprobe1 reprobe2 ne timeout iteration_s).2
          = EAIOutcome.fatal "CTRL-C sent by ShutIt following a timeout, and could not recover" ∧
      (expect_allow_interrupt true probe ctrlc reprobe1 reprobe2 ne timeout
          iteration_s).1.count (Ev.sendChar ETX) = 1 ∧
      (expect_allow_interrupt true probe ctrlc reprobe1 reprobe2 ne timeout
          iteration_s).1.count (Ev.sendChar SUB) = 1) ∧
    (reprobe1 ≠ ne →
      (expect_allow_interrupt true probe ctrlc reprobe1 reprobe2 ne timeout iteration_s).2
          = EAIOutcome.ret reprobe1 ∧
      Ev.pausePoint ∈ (expect_allow_interrupt true probe ctrlc reprobe1 reprobe2 ne timeout
          iteration_s).1 ∧
      (expect_allow_interrupt true probe ctrlc reprobe1 reprobe2 ne timeout
          iteration_s).1.count (Ev.sendChar ETX) = 1 ∧
      (expect_allow_interrupt true probe ctrlc reprobe1 reprobe2 ne timeout
          iteration_s).1.count (Ev.sendChar SUB) = 0) ∧
    (reprobe1 = ne → reprobe2 ≠ ne →
      (expect_allow_interrupt true probe ctrlc reprobe1 reprobe2 ne timeout iteration_s).2
          = EAIOutcome.ret reprobe2 ∧
      Ev.pausePoint ∈ (expect_allow_interrupt true probe ctrlc reprobe1 reprobe2 ne timeout
          iteration_s).1 ∧
      (expect_allow_interrupt true probe ctrlc reprobe1 reprobe2 ne timeout
          iteration_s).1.count (Ev.sendChar ETX) = 1 ∧
      (expect_allow_interrupt true probe ctrlc reprobe1 reprobe2 ne timeout
          iteration_s).1.count (Ev.sendChar SUB) = 1) := by
  obtain ⟨h2, h1⟩ := eaiLoop_allMiss probe ctrlc ne (clamp_timeout timeout).toNat
      ((clamp_iteration timeout iteration_s).toNat - 1) hm hc 0 0
  simp only [expect_allow_interrupt]
  rcases hlp : eaiLoop probe ctrlc ne (clamp_timeout timeout).toNat
      ((clamp_iteration timeout iteration_s).toNat - 1) 0 0 with ⟨tr, ex⟩
  rw [hlp] at h2 h1
  simp only at h2
  subst h2
  have hETXSUB : ETX ≠ SUB := by decide
  have hcount : ∀ c : Char, tr.count (Ev.sendChar c) = 0 := by
    intro c
    refine List.count_eq_zero.2 ?_
    intro hmem
    cases h1 _ hmem
  have hpp : Ev.pausePoint ∉ tr := by
    intro hmem
    cases h1 _ hmem
  refine ⟨?_, ?_, ?_⟩
  · intro e1 e2
    simp only [eaiAfterLoop, Bool.not_true, and_false, if_false, if_pos trivial, e1, e2,
      if_pos rfl]
    refine ⟨rfl, ?_, ?_⟩ <;>
      simp [List.count_append, List.count_cons, hcount, hETXSUB, Ne.symm hETXSUB]
  · intro hne1
    simp only [eaiAfterLoop, Bool.not_true, and_false, if_false, if_pos trivial, hne1,
      if_neg hne1]
    refine ⟨rfl, ?_, ?_, ?_⟩
    · simp
    · simp [List.count_append, List.count_cons, hcount, hETXSUB, Ne.symm hETXSUB]
    · simp [List.count_append, List.count_cons, hcount, hETXSUB, Ne.symm hETXSUB]
  · intro e1 hne2
    simp only [eaiAfterLoop, Bool.not_true, and_false, if_false, if_pos trivial, e1,
      if_pos rfl, if_neg hne2]
    refine ⟨rfl, ?_, ?_, ?_⟩
    · simp
    · simp [List.count_append, List.count_cons, hcount, hETXSUB, Ne.symm hETXSUB]
    · simp [List.count_append, List.count_cons, hcount, hETXSUB, Ne.symm hETXSUB]

/-- C1 witness: concrete attended never-matching run (one expected pattern,
timeout 2, quantum 1, both re-probes missing): exactly one ETX, one SUB,
then the fatal failure. -/
theorem C1_attended_escalation_witness :
    (expect_allow_interrupt true (fun _ => 1) (fun _ => false) 1 1 1 2 1).2
        = EAIOutcome.fatal "CTRL-C sent by ShutIt following a timeout, and could not recover" ∧
    (expect_allow_interrupt true (fun _ => 1) (fun _ => false) 1 1 1 2 1).1.count
        (Ev.sendChar ETX) = 1 ∧
    (expect_allow_interrupt true (fun _ => 1) (fun _ => false) 1 1 1 2 1).1.count
        (Ev.sendChar SUB) = 1 :=
  (C1_attended_escalation (fun _ => 1) (fun _ => false) 1 1 1 2 1
    (fun _ => rfl) (fun _ => rfl)).1 rfl rfl

/-- C4 (counterexample): with the cancel flag set at the first quantum miss
in an unattended run, `expect_allow_interrupt` does stop waiting and clear
the flag, but the situation is not treated as a handled (non-fatal)
interruption: the call fails fatally with "CTRL-C hit and could not
recover". -/
theorem C4_counterexample :
    (expect_allow_interrupt false (fun _ => 1) (fun _ => true) 1 1 1 5 1).2 =
      EAIOutcome.fatal "CTRL-C hit and could not recover" := by
  simp only [expect_allow_interrupt, clamp_timeout, clamp_iteration]
  rw [eaiLoop]
  simp [eaiAfterLoop]

/-- C4 (amended): on a quantum miss with the cancel flag set, the escalator
stops polling (the trace starts with that one miss probe followed by the
flag-clearing event) and then proceeds as after a timeout: in an unattended
context it fails fatally with "CTRL-C hit and could not recover", and in an
attended context it runs the interrupt-signal escalation, returning the
matched index when the re-probe matches.  The child process is never
killed; only the in-band ETX/SUB characters are ever sent. -/
theorem C4_ctrlc_break
    (interactive : Bool) (probe : Nat → Nat) (ctrlc : Nat → Bool)
    (reprobe1 reprobe2 ne : Nat) (timeout iteration_s : Int)
    (hm0 : probe 0 = ne) (hc0 : ctrlc 0 = true) :
    (expect_allow_interrupt interactive probe ctrlc reprobe1 reprobe2 ne timeout
        iteration_s).1.take 2 = [Ev.probe ne, Ev.clearFlag] ∧
    (interactive = false →
      (expect_allow_interrupt interactive probe ctrlc reprobe1 reprobe2 ne timeout
          iteration_s).2 = EAIOutcome.fatal "CTRL-C hit and could not recover") ∧
    (interactive = true →
      Ev.sendChar ETX ∈ (expect_allow_interrupt interactive probe ctrlc reprobe1 reprobe2 ne
          timeout iteration_s).1) ∧
    (interactive = true → reprobe1 ≠ ne →
      (expect_allow_interrupt interactive probe ctrlc reprobe1 reprobe2 ne timeout
          iteration_s).2 = EAIOutcome.ret reprobe1) := by
  have htN : 0 < (clamp_timeout timeout).toNat := by
    have := clamp_timeout_pos timeout
    omega
  simp only [expect_allow_interrupt]
  rw [eaiLoop, dif_pos htN]
  simp only [hm0, hc0, if_pos rfl, if_true]
  cases interactive with
  | false =>
    simp [eaiAfterLoop]
  | true =>
    by_cases h1 : reprobe1 = ne
    · by_cases h2 : reprobe2 = ne
      · simp [eaiAfterLoop, h1, h2]
      · simp [eaiAfterLoop, h1, h2]
    · simp [eaiAfterLoop, h1, List.take]

/-- C4 amended witness: concrete unattended run with the flag set at the
first miss: one probe, flag cleared, fatal "CTRL-C hit" outcome. -/
theorem C4_ctrlc_break_witness :
    (expect_allow_interrupt false (fun _ => 3) (fun _ => true) 3 3 3 7 2).1.take 2
        = [Ev.probe 3, Ev.clearFlag] ∧
    (expect_allow_interrupt false (fun _ => 3) (fun _ => true) 3 3 3 7 2).2
        = EAIOutcome.fatal "CTRL-C hit and could not recover" := by
  obtain ⟨ht, hf, _, _⟩ := C4_ctrlc_break false (fun _ => 3) (fun _ => true) 3 3 3 7 2 rfl rfl
  exact ⟨ht, hf rfl⟩

/-- C2: a well-formed login…logout bracket leaves the login-context stack
depth unchanged: after a successful `login` (context entered), any sequence
of enclosed sends — including failed-and-caught ones — followed by the
matching `logout` restores the original depth, and the `logout` itself
succeeds as long as the session was active (non-empty stack) before the
bracket. -/
theorem C2_bracket_preserves_depth
    (st : PexpectSessionState) (ctx : LoginContext) (fail_on_fail : Bool)
    (cs : List SendCall) (out : String) (st1 : PexpectSessionState) (b : Bool)
    (hroot : st.login_stack ≠ [])
    (hlogin : login st ctx true fail_on_fail = Except.ok (st1, b)) :
    ∃ st2, logout (run_sends st1 cs) out = Except.ok (st2, out) ∧
      st2.login_stack.length = st.login_stack.length := by
  simp only [login, if_true, Except.ok.injEq, Prod.mk.injEq] at hlogin
  obtain ⟨hst1, -⟩ := hlogin
  have hstack : (run_sends st1 cs).login_stack = ctx :: st.login_stack := by
    rw [(run_sends_login_stack cs st1).1, ← hst1]
  rcases hs : st.login_stack with _ | ⟨p, rest⟩
  · exact absurd hs hroot
  · refine ⟨⟨p :: rest, p.prompt, (run_sends st1 cs).history⟩, ?_, ?_⟩
    · simp only [logout, hstack, hs]
    · simp [hs]

/-- C2 witness: a concrete bracket around one recorded send and one
failed-and-caught send on a session with root depth 1 closes at depth 1. -/
theorem C2_bracket_preserves_depth_witness :
    ∃ st2, logout (run_sends ⟨[⟨"docker prompt", "env1", "docker exec"⟩,
          ⟨"root prompt", "env0", "bash"⟩], "docker prompt", []⟩
        [⟨"ls", true, false, false⟩, ⟨"false", true, false, true⟩]) "logged out"
      = Except.ok (st2, "logged out") ∧ st2.login_stack.length = 1 := by
  obtain ⟨st2, h1, h2⟩ := C2_bracket_preserves_depth
    ⟨[⟨"root prompt", "env0", "bash"⟩], "root prompt", []⟩
    ⟨"docker prompt", "env1", "docker exec"⟩ true
    [⟨"ls", true, false, false⟩, ⟨"false", true, false, true⟩] "logged out"
    ⟨[⟨"docker prompt", "env1", "docker exec"⟩, ⟨"root prompt", "env0", "bash"⟩],
      "docker prompt", []⟩ true
    (by simp) rfl
  exact ⟨st2, h1, by simpa using h2⟩

/-- Each failed transmission with retries left resends the identical text;
exhaustion raises an ExitStatusError with the last captured status. -/
lemma send_retry_loop_all_fail (cmd : String) (exit_values : List Int)
    (exit_of : Nat → Int) (hfail : ∀ n, exit_of n ∉ exit_values) :
    ∀ r attempt, send_retry_loop cmd exit_values exit_of attempt r =
      (List.replicate (r + 1) cmd,
        SendResult.exitStatusError cmd exit_values (exit_of (attempt + r))) := by
  intro r
  induction r with
  | zero =>
    intro a
    simp [send_retry_loop, hfail a]
  | succ r ih =>
    intro a
    have harith : a + 1 + r = a + (r + 1) := by omega
    simp [send_retry_loop, hfail a, ih (a + 1), harith, List.replicate_succ]

/-- C3: a `send` with check-exit enabled, accepted exit-value set `{0}` and
retry budget `r`, against a command that always exits 1, transmits the
identical command text `r + 1` times in total (the initial send plus
exactly `r` resends) and then raises a fatal ExitStatusError carrying the
command, the accepted set and the actual exit value 1. -/
theorem C3_check_exit_retries (cmd : String) (r : Nat) :
    send_check_exit cmd [0] r (fun _ => 1) =
      (List.replicate (r + 1) cmd, SendResult.exitStatusError cmd [0] 1) := by
  have h := send_retry_loop_all_fail cmd [0] (fun _ => 1) (by intro n; simp) r 0
  simpa [send_check_exit] using h

/-- C8: `get_echo_override` returns False whenever exam mode is set,
whatever the passed-in echo value, the always-echo setting, the log level
and walkthrough mode; and with exam mode off and always-echo on it returns
True whatever the passed-in echo value, log level and walkthrough mode. -/
theorem C8_echo_override (always_echo : Bool) (loglevel : Int)
    (walkthrough : Bool) (echo : Option Bool) :
    get_echo_override always_echo loglevel walkthrough true echo = some false ∧
    get_echo_override true loglevel walkthrough false echo = some true := by
  constructor
  · simp [get_echo_override]
  · simp [get_echo_override]

/-- C9 (counterexample): a module list with distinct ids, distinct run
orders and a module of run order 0 on which `init_shutit_map` nevertheless
aborts: with only the core module present, the preliminary "anything to
process outside of special modules?" check fails the run, so the claim's
"otherwise it records every loaded module" is false as stated. -/
theorem C9_counterexample :
    init_shutit_map [⟨"shutit.core", 0⟩] "" =
      Except.error
        "No ShutIt modules aside from core ones found and no ShutIt module path given." ∧
    (([⟨"shutit.core", 0⟩] : List ShutItModule).map ShutItModule.module_id).Nodup ∧
    (([⟨"shutit.core", 0⟩] : List ShutItModule).map ShutItModule.run_order).Nodup ∧
    ∃ m ∈ ([⟨"shutit.core", 0⟩] : List ShutItModule), m.run_order = 0 := by
  exact ⟨rfl, by simp, by simp, ⟨⟨"shutit.core", 0⟩, by simp, rfl⟩⟩

/-- C9 (amended): `init_shutit_map` aborts the run when two modules share a
module id, when two share a run order, when no module has run order 0, or
— additionally to the claim — when no module has a run order greater than
0; otherwise it succeeds and records every loaded module in the map under
its module id. -/
theorem C9_init_map (modules : List ShutItModule) (path : String) :
    ((modules.map ShutItModule.module_id).Nodup →
     (modules.map ShutItModule.run_order).Nodup →
     (∃ m ∈ modules, m.run_order = 0) →
     (∃ m ∈ modules, 0 < m.run_order) →
     ∃ mp, init_shutit_map modules path = Except.ok mp ∧
       ∀ m ∈ modules, mp.lookup m.module_id = some m) ∧
    ((¬ (modules.map ShutItModule.module_id).Nodup ∨
      ¬ (modules.map ShutItModule.run_order).Nodup ∨
      (∀ m ∈ modules, m.run_order ≠ 0) ∨
      (∀ m ∈ modules, ¬ 0 < m.run_order)) →
     ∃ e, init_shutit_map modules path = Except.error e) := by
  constructor
  · rintro hnd1 hnd2 ⟨mc, hmc, hmc0⟩ ⟨mpos, hmpos, hmposgt⟩
    obtain ⟨mp, hcout, hok⟩ := initLoop_ok_of_nodup modules [] [] false
      (by simp) (by simp) hnd1 hnd2
    have hcore : hcout = true := by
      have hspec := (initLoop_ok_spec modules [] [] false mp hcout hok).2.2.2.2
      rw [hspec]
      simp only [Bool.false_or, List.any_eq_true]
      exact ⟨mc, hmc, by simp [hmc0]⟩
    have hfilter : ¬ ((modules.filter (fun m => m.run_order > 0)).length < 1) := by
      have hm : mpos ∈ modules.filter (fun m => m.run_order > 0) :=
        List.mem_filter.2 ⟨hmpos, by simpa using hmposgt⟩
      have := List.length_pos.2 (List.ne_nil_of_mem hm)
      omega
    refine ⟨mp, ?_, (initLoop_ok_lookup modules [] [] false mp hcout hok).2⟩
    rw [init_shutit_map, if_neg hfilter, hok, hcore]
    rfl
  · intro hbad
    cases hinit : init_shutit_map modules path with
    | error e => exact ⟨e, rfl⟩
    | ok mp =>
      exfalso
      rw [init_shutit_map] at hinit
      by_cases hf : (modules.filter (fun m => m.run_order > 0)).length < 1
      · rw [if_pos hf] at hinit
        cases hinit
      · rw [if_neg hf] at hinit
        cases hloop : initLoop modules [] [] false with
        | error e =>
          rw [hloop] at hinit
          cases hinit
        | ok p =>
          rcases p with ⟨mp', hcout⟩
          rw [hloop] at hinit
          by_cases hcore : hcout = true
          · obtain ⟨-, -, hnd1, hnd2, hany⟩ :=
              initLoop_ok_spec modules [] [] false mp' hcout hloop
            rcases hbad with h | h | h | h
            · exact h hnd1
            · exact h hnd2
            · rw [hcore] at hany
              have hex : ∃ m ∈ modules, (m.run_order == 0) = true := by
                rw [← List.any_eq_true]
                simpa using hany.symm
              obtain ⟨m, hm, h0⟩ := hex
              exact h m hm (by simpa using h0)
            · have hnil : modules.filter (fun m => m.run_order > 0) = [] := by
                rw [List.filter_eq_nil_iff]
                intro a ha
                simpa using h a ha
              rw [hnil] at hf
              simp at hf
          · simp only [Bool.not_eq_true] at hcore
            rw [hcore] at hinit
            cases hinit

/-- C9 witness: two modules, the core (run order 0) and one buildable
module (run order 1), pass initialisation and both are recorded under
their ids. -/
theorem C9_init_map_witness :
    ∃ mp, init_shutit_map [⟨"shutit.core", 0⟩, ⟨"mod.a", 1⟩] "." = Except.ok mp ∧
      mp.lookup "mod.a" = some ⟨"mod.a", 1⟩ := by
  obtain ⟨mp, hok, hlk⟩ := (C9_init_map [⟨"shutit.core", 0⟩, ⟨"mod.a", 1⟩] ".").1
    (by simp) (by simp)
    ⟨⟨"shutit.core", 0⟩, by simp, rfl⟩
    ⟨⟨"mod.a", 1⟩, by simp, by norm_num⟩
  exact ⟨mp, hok, hlk ⟨"mod.a", 1⟩ (by simp)⟩

/-- C10: the caches never both hold a just-processed module id (assuming
the processed list holds the id at most once, as the code's
check-before-remove discipline maintains): after a successful
`build_module` the id is in `modules_installed` and absent from
`modules_not_installed`; after a successful `do_remove` of a module under
docker/dockerfile delivery the id is in `modules_not_installed` and absent
from `modules_installed`. -/
theorem C10_install_caches
    (env env2 : SessionEnvironment) (id id2 : String) (e e2 : SessionEnvironment)
    (h1 : env.modules_not_installed.count id ≤ 1)
    (hb : build_module env id true = Except.ok e)
    (h2 : env2.modules_installed.count id2 ≤ 1)
    (hr : do_remove_module env2 id2 true true = Except.ok e2) :
    (id ∈ e.modules_installed ∧ id ∉ e.modules_not_installed) ∧
    (id2 ∈ e2.modules_not_installed ∧ id2 ∉ e2.modules_installed) := by
  simp only [build_module, if_true, Except.ok.injEq] at hb
  simp only [do_remove_module, if_true, Except.ok.injEq] at hr
  subst hb
  subst hr
  refine ⟨⟨by simp, ?_⟩, ⟨by simp, ?_⟩⟩
  · by_cases hmem : id ∈ env.modules_not_installed
    · rw [if_pos hmem]
      have hcnt : (env.modules_not_installed.erase id).count id
          = env.modules_not_installed.count id - 1 := List.count_erase_self id _
      have hpos : 0 < env.modules_not_installed.count id := List.count_pos_iff.2 hmem
      have : (env.modules_not_installed.erase id).count id = 0 := by omega
      exact List.count_eq_zero.1 this
    · rw [if_neg hmem]
      exact hmem
  · by_cases hmem : id2 ∈ env2.modules_installed
    · rw [if_pos hmem]
      have hcnt : (env2.modules_installed.erase id2).count id2
          = env2.modules_installed.count id2 - 1 := List.count_erase_self id2 _
      have hpos : 0 < env2.modules_installed.count id2 := List.count_pos_iff.2 hmem
      have : (env2.modules_installed.erase id2).count id2 = 0 := by omega
      exact List.count_eq_zero.1 this
    · rw [if_neg hmem]
      exact hmem

/-- C10 witness: building "m1" over caches {installed = [], not-installed =
["m1"]} and removing "m2" over {installed = ["m2"], not-installed = []}
leave each id in exactly one cache. -/
theorem C10_install_caches_witness :
    ("m1" ∈ (⟨["m1"], [], []⟩ : SessionEnvironment).modules_installed ∧
      "m1" ∉ (⟨["m1"], [], []⟩ : SessionEnvironment).modules_not_installed) ∧
    ("m2" ∈ (⟨[], [], ["m2"]⟩ : SessionEnvironment).modules_not_installed ∧
      "m2" ∉ (⟨[], [], ["m2"]⟩ : SessionEnvironment).modules_installed) := by
  exact C10_install_caches ⟨[], [], ["m1"]⟩ ⟨["m2"], [], []⟩ "m1" "m2"
    ⟨["m1"], [], []⟩ ⟨[], [], ["m2"]⟩ (by simp) rfl (by simp) rfl

end ShutItSpec
